import Mathlib

/-!
Verification of the `architecture_lab_4` repository: a least-connections HTTP
load balancer (`cmd/lb/balancer.go`) and an append-only segmented key/value
store (`datastore/db.go`, `datastore/entry.go`).

The Go code is shallowly embedded: byte strings are `List Nat` (each element a
byte value), 32-bit little-endian integers are explicit 4-byte lists, fallible
or panicking operations return `Option`, and the stateful goroutine loops are
embedded as explicit state-passing step functions.
-/

namespace ArchLab4

/-- Little-endian 4-byte encoding of a natural number, as written by
`binary.LittleEndian.PutUint32` (the value is taken modulo 2^32 through the
four byte extractions). -/
def u32LE (n : Nat) : List Nat :=
  [n % 256, n / 256 % 256, n / 65536 % 256, n / 16777216 % 256]

/-- Value of the first four bytes of a list read little-endian, as
`binary.LittleEndian.Uint32` computes it. Only meaningful when at least four
bytes are present; callers guard the length separately. -/
def readU32Val (l : List Nat) : Nat :=
  l.getD 0 0 + 256 * l.getD 1 0 + 65536 * l.getD 2 0 + 16777216 * l.getD 3 0

/-- Bounds-checked `binary.LittleEndian.Uint32`: Go indexes `b[3]` first and
panics when fewer than four bytes are available, which the embedding models
as `none`. -/
def readU32 (l : List Nat) : Option Nat :=
  if 4 ≤ l.length then some (readU32Val l) else none

/-- The record type of `datastore/entry.go`: `key`, `value` and `dataType`
are Go (byte) strings. -/
structure entry where
  key : List Nat
  value : List Nat
  dataType : List Nat
deriving DecidableEq, Repr

/-- `getLength` / `entry.GetLength` from `entry.go`: the predicted frame
length `len(key) + len(value) + len(dataType) + 12`. -/
def entryGetLength (e : entry) : Nat :=
  e.key.length + e.value.length + e.dataType.length + 12

/-- `entry.Encode` from `entry.go`. The buffer is allocated with
`size = kl + vl + 12`; the final `copy(res[kl+12+vl:], e.dataType)` targets an
empty slice (the buffer ends exactly at `kl+12+vl`), so the `dataType` field
is silently dropped and the frame is
`[size u32][kl u32][key][vl u32][value]`. -/
def entryEncode (e : entry) : List Nat :=
  let kl := e.key.length
  let vl := e.value.length
  let size := kl + vl + 12
  u32LE size ++ u32LE kl ++ e.key ++ u32LE vl ++ e.value

/-- `entry.Decode` from `entry.go`, with Go's bounds-checked reads modelled as
`Option`: reading `kl` at offset 4, the key at `[8, kl+8)`, `vl` at `kl+8`,
the value at `[kl+12, kl+12+vl)`, and then a third, length-prefixed
`dataType` field at offset `kl+12+vl` — four bytes of length `dl` followed by
`dl` bytes. A `Uint32` read with fewer than four bytes available panics in
Go, which is `none` here; on the inputs our theorems evaluate all slice
expressions are within the input's capacity, so the model agrees with Go. -/
def entryDecode (input : List Nat) : Option entry :=
  match readU32 (input.drop 4) with
  | none => none
  | some kl =>
    if 8 + kl ≤ input.length then
      let key := (input.drop 8).take kl
      match readU32 (input.drop (kl + 8)) with
      | none => none
      | some vl =>
        if kl + 12 + vl ≤ input.length then
          let value := (input.drop (kl + 12)).take vl
          match readU32 (input.drop (kl + 12 + vl)) with
          | none => none
          | some dl =>
            if kl + 12 + vl + 4 + dl ≤ input.length then
              some ⟨key, value, (input.drop (kl + 12 + vl + 4)).take dl⟩
            else none
        else none
    else none

/-- `readValue` from `entry.go`, on a stream modelled as the list of bytes
from the seek position (the whole remainder is buffered, which matches
`bufio` for files below the buffer size — all files in scope here).
Faithful step for step: `Peek(8)`; `keySize` from `header[4:]`;
`Discard(keySize + 8)`; a 4-byte read into `dataTypeBuf` (this consumes the
frame's value-length field; the subsequent comparison
`dataType != string(dataTypeBuf)` compares the buffer with itself and never
fails); `Peek(4)` for `valSize` (this reads the first four bytes of the value
itself); `Discard(4)`; finally a read of `valSize` bytes checked against the
count actually read. -/
def readValue (s : List Nat) : Option (List Nat) :=
  if s.length < 8 then none
  else
    let keySize := readU32Val (s.drop 4)
    if s.length < keySize + 8 then none
    else
      let s1 := s.drop (keySize + 8)
      if s1.length = 0 then none
      else
        let s2 := s1.drop 4
        if s2.length < 4 then none
        else
          let valSize := readU32Val s2
          let s3 := s2.drop 4
          if valSize ≤ s3.length then some (s3.take valSize) else none

/-- The type-tag byte `'s'` that `Db.Put` appends to the stored value. -/
def sTag : Nat := 115

/-- Errors surfaced by the modelled store operations. -/
inductive DbError where
  | fileClosed
deriving DecidableEq, Repr

/-- Go-map assignment on an association list: the new binding replaces any
previous binding of the same key. -/
def setIdx (k : List Nat) (v : Nat) (idx : List (List Nat × Nat)) :
    List (List Nat × Nat) :=
  (k, v) :: idx.filter (fun kv => ¬(kv.1 = k))

/-- Go-map lookup on an association list. -/
def lookupIdx (k : List Nat) (idx : List (List Nat × Nat)) : Option Nat :=
  match idx with
  | [] => none
  | kv :: rest => if kv.1 = k then some kv.2 else lookupIdx k rest

/-- State of a `Db` restricted to its active segment: the active file's
bytes, the active segment's in-memory index and the `outOffset` counter,
plus two flags describing the health of the active file handle. `outClosed`
holds after `Db.Close` (the handle was closed); `outWriteFails` models a
handle on which `Stat` succeeds but `Write` returns an error (e.g. a full
disk). `stat.Size()` is `file.length`. -/
structure DbModel where
  outClosed : Bool
  outWriteFails : Bool
  file : List Nat
  segmentSize : Nat
  index : List (List Nat × Nat)
  outOffset : Nat
deriving DecidableEq, Repr

/-- `Db.createNewSegment` as seen from the active segment: a fresh file is
opened (healthy handle, empty, offset 0) and becomes the output; the retired
segment leaves this single-active-segment model (the multi-segment lookup and
the merge are modelled separately below). -/
def createNewSegmentM (db : DbModel) : DbModel :=
  { db with outClosed := false, outWriteFails := false, file := [],
            index := [], outOffset := 0 }

/-- One iteration of the `Db.PutGoroutine` writer loop (db.go lines 110-138)
for request `e`, returning the new state and the value sent on `putDone`.
`db.out.Stat()` fails on a closed handle, and that error is sent on
`putDone`. Otherwise, if `stat.Size() + length` exceeds `segmentSize` a new
segment is created. Then `db.out.Write(e.Encode())` runs: when it fails, no
`indexOps` message is sent — and the loop still sends `nil` on `putDone`
(line 135 is unconditional). On success the index loop records
`key ↦ outOffset` via `setKey` and advances `outOffset` by the number of
bytes written. -/
def putGoroutineStep (db : DbModel) (e : entry) : DbModel × Option DbError :=
  let length := entryGetLength e
  if db.outClosed then (db, some DbError.fileClosed)
  else
    let db1 := if db.file.length + length > db.segmentSize then
                 createNewSegmentM db
               else db
    if db1.outWriteFails then (db1, none)
    else
      let enc := entryEncode e
      ({ db1 with file := db1.file ++ enc,
                  index := setIdx e.key db1.outOffset db1.index,
                  outOffset := db1.outOffset + enc.length }, none)

/-- `Db.Put`: wraps the value with the `"s"` type tag and runs one writer-loop
iteration (the send on `putOps` and the receive from `putDone` are the
synchronous hand-off to `PutGoroutine`). -/
def dbPut (db : DbModel) (key value : List Nat) : DbModel × Option DbError :=
  putGoroutineStep db ⟨key, value ++ [sTag], []⟩

/-- `Db.Get` on the single-active-segment model: `getPos` resolves the key
through the index loop; `Segment.getFromSegment` opens the file, seeks to the
recorded offset and calls `readValue`; then `Get` demands that the last byte
of the returned value be the `"s"` tag and strips it. Every error path
(not found, read failure, missing tag, empty value) collapses to `none`. -/
def dbGet (db : DbModel) (key : List Nat) : Option (List Nat) :=
  match lookupIdx key db.index with
  | none => none
  | some pos =>
    match readValue (db.file.drop pos) with
    | none => none
    | some value =>
      match value.getLast? with
      | some b => if b = sTag then some value.dropLast else none
      | none => none

/-- The scanning loop of `Db.recover` (db.go lines 219-257) over the bytes of
the recovered file, with explicit fuel (the Go loop advances through the
stream; fuel `file.length + 1` always suffices). Each round: an empty stream
is the clean `io.EOF` exit; fewer than four bytes make
`binary.LittleEndian.Uint32(header)` panic (`none`); otherwise `size` is read
and `in.Read(data)` returns `n = min size stream.length` buffered bytes
(files here fit the 8 KiB peek window); `n ≠ size` is the "corrupted file"
error; then `e.Decode(data)` runs (its panic is `none`) and `setKey` records
`e.key ↦ outOffset`, advancing `outOffset` by `n`. -/
def dbRecoverScan :
    Nat → List Nat → List (List Nat × Nat) → Nat → Option (List (List Nat × Nat))
  | 0, _, _, _ => none
  | fuel + 1, stream, index, outOffset =>
    if stream.length = 0 then some index
    else if stream.length < 4 then none
    else
      let size := readU32Val stream
      let n := min size stream.length
      if n ≠ size then none
      else
        match entryDecode (stream.take size) with
        | none => none
        | some e => dbRecoverScan fuel (stream.drop n)
                      (setIdx e.key outOffset index) (outOffset + n)

/-- `Db.recover` run over the bytes of an existing segment file, returning
the rebuilt index of that segment, or `none` when recovery panics or reports
corruption. -/
def dbRecover (file : List Nat) : Option (List (List Nat × Nat)) :=
  dbRecoverScan (file.length + 1) file [] 0

/-- The `Server` struct of cmd/lb/balancer.go. -/
structure GoServer where
  address : String
  connCnt : Nat
  isServerOnline : Bool
deriving DecidableEq, Repr

/-- Zero value used for out-of-range index reads; the balancer model only
ever indexes within range. -/
def dummyServer : GoServer := ⟨"", 0, false⟩

/-- Balancer state. Go's `onlineServers` heap holds pointers into
`serversPool`; the embedding represents a pointer as the backend's position
in `pool`, so aliased `connCnt` updates stay consistent across duplicate
heap entries. `lastProbeOk` is a ghost field never read by any modelled code
path: it records each backend's most recent health-probe outcome, which is
the spec's notion of a live backend. -/
structure LbState where
  pool : List GoServer
  online : List Nat
  lastProbeOk : List Bool
deriving DecidableEq, Repr

/-- `ServerHeap.Less` lifted to the pool-index representation:
`h[i].connCnt < h[j].connCnt`. -/
def heapLess (pool : List GoServer) (h : List Nat) (i j : Nat) : Bool :=
  decide ((pool.getD (h.getD i 0) dummyServer).connCnt <
          (pool.getD (h.getD j 0) dummyServer).connCnt)

/-- `ServerHeap.Swap`. -/
def swapL (h : List Nat) (i j : Nat) : List Nat :=
  (h.set i (h.getD j 0)).set j (h.getD i 0)

/-- The loop of `container/heap`'s `down(h, i0, n)`, with fuel (each step at
least doubles `i`, so `n + 1` rounds always suffice); returns the final
position of the sifted element together with the heap. -/
def downLoop (pool : List GoServer) :
    Nat → List Nat → Nat → Nat → List Nat × Nat
  | 0, h, i, _ => (h, i)
  | fuel + 1, h, i, n =>
    let j1 := 2 * i + 1
    if j1 ≥ n then (h, i)
    else
      let j := if j1 + 1 < n ∧ heapLess pool h (j1 + 1) j1 = true then j1 + 1
               else j1
      if heapLess pool h j i = true then downLoop pool fuel (swapL h i j) j n
      else (h, i)

/-- `container/heap`'s `down(h, i0, n)`: the heap after sifting down from
`i0` within the first `n` elements, and whether the element moved. -/
def heapDown (pool : List GoServer) (h : List Nat) (i0 n : Nat) :
    List Nat × Bool :=
  let r := downLoop pool (n + 1) h i0 n
  (r.1, decide (i0 < r.2))

/-- The loop of `container/heap`'s `up(h, j)`, with fuel (`j` strictly
decreases, so `h.length + 1` rounds suffice). -/
def upLoop (pool : List GoServer) : Nat → List Nat → Nat → List Nat
  | 0, h, _ => h
  | fuel + 1, h, j =>
    if j = 0 then h
    else
      let i := (j - 1) / 2
      if heapLess pool h j i = true then upLoop pool fuel (swapL h i j) i
      else h

/-- `heap.Push`: append the new element (`ServerHeap.Push`) and sift it up. -/
def heapPush (pool : List GoServer) (h : List Nat) (x : Nat) : List Nat :=
  let h1 := h ++ [x]
  upLoop pool (h1.length + 1) h1 (h1.length - 1)

/-- `heap.Fix(h, 0)` as the dispatch handler calls it: sift down from the
root; when nothing moved, sift up (a no-op at index 0, kept for
faithfulness). -/
def heapFix0 (pool : List GoServer) (h : List Nat) : List Nat :=
  let r := heapDown pool h 0 h.length
  if r.2 then r.1 else upLoop pool (h.length + 1) r.1 0

/-- `heap.Remove(h, i)`: swap the element with the last one, restore the heap
property on the shortened prefix, and pop the last element
(`ServerHeap.Pop`). -/
def heapRemoveAt (pool : List GoServer) (h : List Nat) (i : Nat) : List Nat :=
  let n := h.length - 1
  let h1 := if n ≠ i then
      let hs := swapL h i n
      let r := heapDown pool hs i n
      if r.2 then r.1 else upLoop pool (hs.length + 1) r.1 i
    else h
  h1.dropLast

/-- Update `pool[i].connCnt` through a pointer to the i-th server. -/
def modifyConn (pool : List GoServer) (i : Nat) (f : Nat → Nat) :
    List GoServer :=
  pool.set i (let s := pool.getD i dummyServer; { s with connCnt := f s.connCnt })

/-- `healthCheckUp` from `main` (balancer.go lines 128-146), for backend `i`
with probe outcome `probeOk`. The local `isServerOnline := health(...)` is
compared against the struct field `server.isServerOnline`, which no code ever
assigns: a healthy probe of a backend whose field is still `false` pushes the
backend onto `onlineServers` (again, on every probe round), and the removal
branch requires the field to be `true`, so it can never run from the initial
state. The ghost `lastProbeOk` records the probe outcome. -/
def healthCheckUp (st : LbState) (i : Nat) (probeOk : Bool) : LbState :=
  let server := st.pool.getD i dummyServer
  let st1 := { st with lastProbeOk := st.lastProbeOk.set i probeOk }
  if probeOk && !server.isServerOnline then
    { st1 with online := heapPush st1.pool st1.online i }
  else if !probeOk && server.isServerOnline then
    match st1.online.findIdx? (fun j => j = i) with
    | some serverIndex =>
      { st1 with online := heapRemoveAt st1.pool st1.online serverIndex }
    | none => st1
  else st1

/-- What the dispatch handler decides for one inbound request. -/
inductive DispatchOutcome where
  | badGateway
  | forwardTo (i : Nat)
deriving DecidableEq, Repr

/-- The dispatch handler of `main` (balancer.go lines 165-179): with an empty
`onlineServers` it writes `502 Bad Gateway` and returns without contacting
any backend; otherwise it runs `heap.Fix(&onlineServers, 0)`, takes
`onlineServers[0]`, increments that server's `connCnt` and forwards the
request to it. -/
def dispatchStep (st : LbState) : LbState × DispatchOutcome :=
  if st.online.length = 0 then (st, DispatchOutcome.badGateway)
  else
    let online := heapFix0 st.pool st.online
    let idx := online.getD 0 0
    ({ st with pool := modifyConn st.pool idx (fun c => c + 1),
               online := online }, DispatchOutcome.forwardTo idx)

/-- The `server.connCnt--` the handler runs after `forward` returns. -/
def completeRequest (st : LbState) (i : Nat) : LbState :=
  { st with pool := modifyConn st.pool i (fun c => c - 1) }

/-- `serversPool` from balancer.go: three backends, `connCnt` and
`isServerOnline` zero-valued. -/
def initPool : List GoServer :=
  [⟨"server1:8080", 0, false⟩, ⟨"server2:8080", 0, false⟩,
   ⟨"server3:8080", 0, false⟩]

/-- Balancer state at startup: `onlineServers` empty, nothing probed yet. -/
def initLb : LbState := ⟨initPool, [], [false, false, false]⟩

/-- The default of the `-timeout-sec` flag. -/
def defaultTimeoutSec : Nat := 3

/-- The two package-level variables of balancer.go that carry the timeout:
the flag cell `*timeoutSec` and the derived
`timeout = time.Duration(*timeoutSec) * time.Second`, here kept in
seconds. -/
structure LbVars where
  timeoutSec : Nat
  timeout : Nat
deriving DecidableEq, Repr

/-- Package initialization order: `timeoutSec` is registered with its default
value, and `timeout` is computed from `*timeoutSec` at package-variable
initialization time — before `main` runs `flag.Parse()`. -/
def lbVarsInit : LbVars :=
  { timeoutSec := defaultTimeoutSec, timeout := defaultTimeoutSec }

/-- `flag.Parse()` with a `-timeout-sec` argument: it stores the parsed value
into the flag cell `*timeoutSec`; the already-initialized `timeout` variable
is not recomputed. -/
def flagParse (v : LbVars) (timeoutSecArg : Nat) : LbVars :=
  { v with timeoutSec := timeoutSecArg }

/-- The deadline (in seconds) that both `health` and `forward` install on
their outbound request contexts: `context.WithTimeout(..., timeout)` reads
the package variable `timeout`. -/
def outboundTimeoutSec (v : LbVars) : Nat := v.timeout

/-- A fresh `Db` restricted to its active segment: healthy handle, empty
file and index, segment size 1000 (large enough that no rotation occurs in
the runs below). -/
def dbEmpty : DbModel := ⟨false, false, [], 1000, [], 0⟩

/-- A `Db` whose active handle rejects writes while `Stat` still succeeds
(e.g. the disk filled up after the file was opened). -/
def dbDiskFull : DbModel := ⟨false, true, [], 1000, [], 0⟩

/-- A `Db` after `Db.Close`: the active handle is closed. -/
def dbAfterClose : DbModel := ⟨true, false, [], 1000, [], 0⟩

/-- The frame `Db.Put("1", "a")` appends: key `"1"`, stored value `"as"`
(the user value plus the `"s"` type tag), empty `dataType`. -/
def frame1a : List Nat := entryEncode ⟨[49], [97, 115], []⟩

/-- A reachable balancer state: the synchronous startup probe pass finds all
three backends healthy (pushing each onto `onlineServers`); ten seconds
later the periodic probes find them healthy again and — because
`server.isServerOnline` was never set — push all three a second time; three
requests are then dispatched (to backends 0, 1 and 2) and the first one (to
backend 0) completes. In-flight counts are now 0, 1, 1 with
`onlineServers = [2, 1, 2, 0, 0, 1]`. -/
def c7TraceState : LbState :=
  let st := healthCheckUp (healthCheckUp (healthCheckUp initLb 0 true) 1 true) 2 true
  let st := healthCheckUp (healthCheckUp (healthCheckUp st 0 true) 1 true) 2 true
  let r1 := dispatchStep st
  let r2 := dispatchStep r1.1
  let r3 := dispatchStep r2.1
  match r1.2 with
  | DispatchOutcome.forwardTo i => completeRequest r3.1 i
  | DispatchOutcome.badGateway => r3.1

/-- A reachable balancer state with an empty live set: backend 0 probes
healthy once (and is pushed onto `onlineServers`), then its next probe
fails. The removal branch of `healthCheckUp` requires
`server.isServerOnline` — which no code ever sets — so backend 0 stays in
`onlineServers` although no backend's most recent probe succeeded. -/
def c8TraceState : LbState :=
  healthCheckUp (healthCheckUp initLb 0 true) 0 false

/-- The tombstone sentinel from db.go (`deleteMarker = "DELETE"`) as its
byte string. -/
def deleteMarker : List Nat := [68, 69, 76, 69, 84, 69]

/-- The `Segment` struct of db.go at the byte level: the bytes of its file
and its in-memory key ↦ offset index (the `filePath` only names the file
whose bytes these are; `outOffset` of retired segments is unused by the
modelled operations). -/
structure Segment where
  file : List Nat
  index : List (List Nat × Nat)
deriving DecidableEq, Repr

/-- `Segment.getFromSegment`: open the segment's file, seek to `position`
and run `readValue` on the stream from there. All error paths return the
zero string paired with the error, here collapsed to `none`. -/
def getFromSegment (s : Segment) (position : Nat) : Option (List Nat) :=
  readValue (s.file.drop position)

/-- `findKeyInSegments` from db.go: whether any of the given segments'
indexes contains the key. -/
def findKeyInSegments (segments : List Segment) (key : List Nat) : Bool :=
  segments.any (fun s => (lookupIdx key s.index).isSome)

/-- The inner loop of `Db.mergeOldSegments` over one old segment's index
entries (`for key, index := range s.index`), threading the merged file
bytes, the merged segment's index and the running `offset`. Go's map
iteration order is unspecified; the model iterates the association list in
order (the states our theorems evaluate have at most one binding per
segment, so the order is immaterial). An entry is skipped when a newer
non-active segment (`rest`) also contains the key. The value is read with
`value, _ := s.getFromSegment(index)` — the error is discarded and the zero
string (empty byte string) stands in for the value when the read fails.
Entries whose value equals `deleteMarker` are dropped. A kept entry is
re-encoded and appended, recording `key ↦ offset` (file writes are modelled
as succeeding). -/
def mergeLoopInner (s : Segment) (rest : List Segment) :
    List (List Nat × Nat) → List Nat → List (List Nat × Nat) → Nat →
    List Nat × List (List Nat × Nat) × Nat
  | [], file, idx, offset => (file, idx, offset)
  | (key, pos) :: es, file, idx, offset =>
    if findKeyInSegments rest key then mergeLoopInner s rest es file idx offset
    else
      let value := (getFromSegment s pos).getD []
      if value = deleteMarker then mergeLoopInner s rest es file idx offset
      else
        let enc := entryEncode ⟨key, value, []⟩
        mergeLoopInner s rest es (file ++ enc) (setIdx key offset idx)
          (offset + enc.length)

/-- The outer loop of `Db.mergeOldSegments` over the non-active segments in
oldest-to-newest order (`for i := 0; i <= lastSegmentIndex; i++`): segment
`i`'s entries are filtered against the newer non-active segments
(`db.segments[i+1 : lastSegmentIndex+1]`, which is `rest`; when
`i = lastSegmentIndex` the guard `i < lastSegmentIndex` skips the check,
matching `findKeyInSegments` over the empty list). -/
def mergeLoopOuter :
    List Segment → List Nat → List (List Nat × Nat) → Nat →
    List Nat × List (List Nat × Nat) × Nat
  | [], file, idx, offset => (file, idx, offset)
  | s :: rest, file, idx, offset =>
    let r := mergeLoopInner s rest s.index file idx offset
    mergeLoopOuter rest r.1 r.2.1 r.2.2

/-- `Db.getLastSegment`: the last element of `segments` (the active
segment). -/
def getLastSegment (segs : List Segment) : Segment :=
  segs.getLastD ⟨[], []⟩

/-- `Db.mergeOldSegments` as the state transformation the background merge
performs on `db.segments` when it completes: the segments before the last
(`lastSegmentIndex = len - 2`, so indices `0 .. len-2`, i.e.
`take (len - 1)`) are folded into a fresh segment via the two loops above,
starting from an empty file, empty index and `offset = 0`, and `segments`
becomes `[newSegment, active]`. -/
def mergeOldSegments (segments : List Segment) : List Segment :=
  let r := mergeLoopOuter (segments.take (segments.length - 1)) [] [] 0
  [⟨r.1, r.2.1⟩, getLastSegment segments]

/-- The walk of `Db.getSegmentAndPos` on an already reversed segment list:
the first segment whose index contains the key is returned with the
recorded position. -/
def lookupSegRev : List Segment → List Nat → Option (Segment × Nat)
  | [], _ => none
  | s :: rest, k =>
    match lookupIdx k s.index with
    | some pos => some (s, pos)
    | none => lookupSegRev rest k

/-- `Db.getSegmentAndPos`: walk `db.segments` from the last (newest) to the
first; `ErrNotFound` is `none`. -/
def getSegmentAndPos (segs : List Segment) (key : List Nat) :
    Option (Segment × Nat) :=
  lookupSegRev segs.reverse key

/-- `Db.Get` over a full segment list: resolve the key through
`getSegmentAndPos` (via the index loop), read with
`Segment.getFromSegment`, then demand the trailing `"s"` type tag and strip
it. Every error path (not found, read failure, missing tag, empty value)
collapses to `none`. -/
def dbGetSegments (segs : List Segment) (key : List Nat) : Option (List Nat) :=
  match getSegmentAndPos segs key with
  | none => none
  | some (s, pos) =>
    match getFromSegment s pos with
    | none => none
    | some value =>
      match value.getLast? with
      | some b => if b = sTag then some value.dropLast else none
      | none => none

/-- The frame `Put("1", "\x01\x00\x00\x00")` writes: stored value
`[1, 0, 0, 0, 115]` (the user's four bytes plus the `"s"` tag). Through the
defective `readValue`, this key is readable before a merge: the stored
value's first four bytes are taken as the value length 1, so `readValue`
returns `[115]` and `Get` strips the tag and returns the empty string. -/
def frameTricky : List Nat := entryEncode ⟨[49], [1, 0, 0, 0, 115], []⟩

/-- The frame `Put("2", "b")` writes: stored value `[98, 115]` (`"bs"`). -/
def frame2b : List Nat := entryEncode ⟨[50], [98, 115], []⟩

/-- A three-segment store at the merge trigger: the oldest segment holds
the `frameTricky` entry for key `"1"`, the middle segment holds the
`frame2b` entry for key `"2"`, and the freshly rotated active segment is
empty. -/
def segsTricky : List Segment :=
  [⟨frameTricky, [([49], 0)]⟩, ⟨frame2b, [([50], 0)]⟩, ⟨[], []⟩]

end ArchLab4

namespace ArchLab4

/-- C1: the claim says that after a sequence of puts for a key on an open
`Db`, `Get` of that key returns the last value put, type tag stripped. It
fails already for a single `Put("1", "a")` on a fresh store: the put itself
completes with `nil`, but `Get("1")` errors instead of returning `"a"`,
because `readValue` consumes the frame's value-length field as a 4-byte
data-type tag and then fails reading a value length out of the two value
bytes that remain. -/
theorem c1_put_then_get_fails :
    (dbPut dbEmpty [49] [97]).2 = none ∧
    dbGet (dbPut dbEmpty [49] [97]).1 [49] = none := by decide

/-- C2: the claim says a failed file write is reported to the caller as the
per-request completion. In the code the writer loop sends `nil` on `putDone`
unconditionally after the write attempt (db.go line 135), so on a state
whose handle rejects writes (while `Stat` succeeds) `Put` returns `nil` and
leaves the state — in particular the index — unchanged: the no-index-update
half of the claim holds, the error-reporting half does not. -/
theorem c2_write_error_reported_as_ok :
    dbPut dbDiskFull [49] [97] = (dbDiskFull, none) := by decide

/-- C3: the claim says `readValue`, on a stream positioned at the start of
one encoded frame, skips `[total_len][key_len][key]` and then returns the
`value_len`-byte value. On the encoded frame for key `"1"`, value `"as"` it
instead consumes the value-length field as a data-type tag, then fails
peeking a value length where only the two value bytes remain: it returns an
error, not the value bytes `[97, 115]`. -/
theorem c3_readValue_misparses_frame :
    readValue frame1a = none := by decide

/-- C4: the claim says decoding an encoded `(key, value)` frame returns the
original pair. `entry.Encode` drops the `dataType` field (its copy targets
an empty slice), while `entry.Decode` tries to read a third, length-prefixed
`dataType` field at offset `kl+12+vl` — the end of the buffer — so the
`Uint32` read panics on every `Encode` output; no pair is returned. -/
theorem c4_decode_encode_fails :
    entryDecode frame1a = none := by decide

/-- C6: the claim says `NewDb` on an existing directory rebuilds the index
by scanning the segment files so `Get` returns the values written before
close. Scanning a file holding the single well-formed frame written by
`Put("1", "a")` already fails: `recover` reads the frame and calls
`entry.Decode`, which panics reading the absent `dataType` length past the
frame's end, so no index is rebuilt. -/
theorem c6_recover_fails_on_wellformed_file :
    dbRecover frame1a = none := by decide

/-- C7: the claim says the dispatcher always selects a backend with minimal
in-flight count over the live set. In the reachable state `c7TraceState` all
three backends are live, backend 0 has 0 requests in flight and backend 2
has 1 — yet the handler (a single `heap.Fix` at the root of an
`onlineServers` that holds duplicate entries, because `healthCheckUp` never
updates `server.isServerOnline`) selects backend 2. -/
theorem c7_dispatch_not_least_connections :
    c7TraceState.lastProbeOk = [true, true, true] ∧
    (c7TraceState.pool.getD 0 dummyServer).connCnt = 0 ∧
    (c7TraceState.pool.getD 2 dummyServer).connCnt = 1 ∧
    (dispatchStep c7TraceState).2 = DispatchOutcome.forwardTo 2 := by decide

/-- C8: the claim says a request arriving while the live set is empty gets
`502` and is forwarded nowhere. In the reachable state `c8TraceState` no
backend's most recent probe succeeded (the live set is empty), but backend 0
is still in `onlineServers` — dead backends are never removed because
`server.isServerOnline` is never set — so the handler forwards the request
to backend 0 instead of answering 502. -/
theorem c8_empty_live_set_forwarded :
    c8TraceState.lastProbeOk = [false, false, false] ∧
    (dispatchStep c8TraceState).2 = DispatchOutcome.forwardTo 0 := by decide

/-- C9: the claim says every outbound request uses a deadline equal to the
configured `-timeout-sec` value. The package variable
`timeout = time.Duration(*timeoutSec) * time.Second` is initialized from the
flag's default before `main` calls `flag.Parse()`, so parsing
`-timeout-sec 10` changes only the flag cell: outbound requests still use
the 3-second default. -/
theorem c9_timeout_ignores_flag :
    outboundTimeoutSec (flagParse lbVarsInit 10) = defaultTimeoutSec ∧
    outboundTimeoutSec (flagParse lbVarsInit 10) ≠ 10 := by decide

/-- C10 counterexample: the claim says a `Put` issued after `Db.Close`
still returns `nil` and no `closed` error is ever surfaced. In fact the
writer loop's first step, `db.out.Stat()`, fails on the closed handle and
that error is sent on `putDone`, so `Put("1", "a")` returns the
file-already-closed error, not `nil`. -/
theorem c10_put_after_close_returns_error :
    (dbPut dbAfterClose [49] [97]).2 = some DbError.fileClosed := by decide

/-- C10 amended: after `Db.Close`, a subsequent `Put` returns the
file-already-closed error from the `Stat` call at the top of the writer
loop, and the state — file bytes and index — is unchanged. (Write errors are
swallowed only when `Stat` succeeds, see C2.) -/
theorem c10_put_after_close_reports_stat_error
    (db : DbModel) (key value : List Nat) (h : db.outClosed = true) :
    dbPut db key value = (db, some DbError.fileClosed) := by
  simp [dbPut, putGoroutineStep, h]

/-- C10 witness: the amended statement evaluated on a concrete closed
store. -/
theorem c10_put_after_close_reports_stat_error_witness :
    dbAfterClose.outClosed = true ∧
    dbPut dbAfterClose [50] [98] = (dbAfterClose, some DbError.fileClosed) :=
  ⟨rfl, c10_put_after_close_reports_stat_error dbAfterClose [50] [98] rfl⟩

end ArchLab4

namespace ArchLab4

end ArchLab4

namespace ArchLab4

/-- C5: the claim says that after a merge triggered at three or more
segments, `segments` is exactly `[merged, active]` with the active segment
unchanged, and every key readable before the merge reads the same value
after it. On `segsTricky` the two structural parts hold, but the
preservation part fails: key `"1"` (stored value `[1,0,0,0,115]`) is
readable before the merge — the defective `readValue` takes the value's
first four bytes as the length and `Get` returns the empty string — while
the merge re-reads it through the same defective path (`value, _ :=
s.getFromSegment(index)` discards the error), rewrites the entry with value
`"s"`, and afterwards `Get("1")` errors: the rewritten one-byte value leaves
fewer than four bytes to peek a value length from. -/
theorem c5_merge_drops_readable_key :
    (mergeOldSegments segsTricky).length = 2 ∧
    getLastSegment (mergeOldSegments segsTricky) = getLastSegment segsTricky ∧
    dbGetSegments segsTricky [49] = some [] ∧
    dbGetSegments (mergeOldSegments segsTricky) [49] = none := by decide

end ArchLab4
